import Mathlib

/-!
A shallow embedding in Lean 4 of the `charleshuang3/firewall` Go library:
the whitelist address matcher (`ipmatcher.go`, shown in `manual_test`
context), the serialized ban/count-error engine (`firewall.go`, including
the `golang.org/x/time/rate` token bucket it instantiates), and the
geolocation component with hot database swap (`ipgeo/mm.go`).

Modelling conventions:
- `time.Time` / `time.Duration` are rationals measured in seconds; the Go
  zero `time.Time` is modelled as `Option.none` where the code compares it
  (`bannedUntil`), and as `0` where it is used as an origin (`lastCheck`,
  the limiter's `last`).  The float64 token arithmetic of
  `golang.org/x/time/rate` is idealized as exact rational arithmetic.
- `log.Fatalf` process termination is modelled as `Except.error ()`.
- Go maps keyed by strings are association lists; Go channels plus the
  single consumer loop are modelled by the sequential `step` function, one
  event at a time, which is exactly the serialization the loop guarantees.
-/

namespace firewall

/-- A four-byte IPv4 address, the `To4()` form produced by `parseIP`. -/
structure IPv4 where
  b0 : Nat
  b1 : Nat
  b2 : Nat
  b3 : Nat
deriving DecidableEq, Repr

/-- Helper for splitting on a separator character (the behavior of
`strings.Split` with a one-character separator, used on `.` and `/`);
structural recursion so that concrete runs reduce in the kernel. -/
def splitOnAux (sep : Char) : List Char → List Char → List (List Char)
  | [], acc => [acc.reverse]
  | c :: cs, acc =>
    if c = sep then acc.reverse :: splitOnAux sep cs []
    else splitOnAux sep cs (c :: acc)

/-- `strings.Split(s, sep)` for a one-character separator. -/
def splitOnChar (sep : Char) (l : List Char) : List (List Char) :=
  splitOnAux sep l []

/-- The value of an all-digit run, most significant first. -/
def digitsToNat (l : List Char) : Nat :=
  l.foldl (fun n c => n * 10 + (c.toNat - '0'.toNat)) 0

/-- One dotted-quad field of `net.ParseIP`: 1 to 3 decimal digits, value
at most 255, no leading zeros (Go rejects leading zeros since 1.17). -/
def decOctet (l : List Char) : Option Nat :=
  if l.length = 0 ∨ 3 < l.length then none
  else if ¬ l.all Char.isDigit then none
  else if 1 < l.length ∧ l.headD ' ' = '0' then none
  else
    let n := digitsToNat l
    if n ≤ 255 then some n else none

/-- The dotted-quad path of `net.ParseIP` followed by `To4()`.  `none`
covers both ways the firewall's `parseIP` calls `log.Fatalf`: the string
does not parse as an IP at all, or it is not IPv4 (IPv6 literals never
yield a 4-byte form here; the IPv4-mapped-IPv6 corner is not modelled). -/
def parseIPv4Chars (l : List Char) : Option IPv4 :=
  match splitOnChar '.' l with
  | [a, b, c, d] =>
    match decOctet a, decOctet b, decOctet c, decOctet d with
    | some x0, some x1, some x2, some x3 => some ⟨x0, x1, x2, x3⟩
    | _, _, _, _ => none
  | _ => none

/-- `parseIP` applied to a whole string. -/
def parseIPv4String (s : String) : Option IPv4 :=
  parseIPv4Chars s.data

/-- `strconv.Atoi`: optional sign, then at least one digit (leading
zeros allowed; the out-of-range error cannot occur at these sizes). -/
def atoiDigits (l : List Char) : Option Nat :=
  if l.length = 0 ∨ ¬ l.all Char.isDigit then none else some (digitsToNat l)

/-- `strconv.Atoi` on the prefix-length part of a CIDR rule. -/
def atoi (l : List Char) : Option Int :=
  match l with
  | '-' :: rest => (atoiDigits rest).map (fun n => -(n : Int))
  | '+' :: rest => (atoiDigits rest).map (fun n => (n : Int))
  | _ => (atoiDigits l).map (fun n => (n : Int))

/-- `ipMatcher` from the firewall package: exactly one of the two rule
forms is populated (`ip` for a bare address, `network` for a CIDR rule).
`maskLen` is the prefix length handed to `net.CIDRMask(m, 32)`; it is an
`Int` because Go parses it with `strconv.Atoi`. -/
inductive ipMatcher where
  | ipRule (ip : IPv4)
  | networkRule (ip : IPv4) (maskLen : Int)
deriving DecidableEq, Repr

/-- Byte `i` of `net.CIDRMask(ones, 32)`: the high `ones` bits of the
32-bit mask are set.  (`CIDRMask` returns `nil` for `ones < 0` or
`ones > 32`; that case is handled in `ipMatcher.matchIP`.) -/
def cidrMaskByte (ones : Nat) (i : Nat) : Nat :=
  if 8 * (i + 1) ≤ ones then 255
  else if ones ≤ 8 * i then 0
  else 256 - 2 ^ (8 * (i + 1) - ones)

/-- `ipMatcher.match` from the source.  A bare rule uses `net.IP.Equal`
(byte equality of the 4-byte forms); a CIDR rule uses `net.IPNet.Contains`,
which masks both the candidate and the network address bytewise.  An
out-of-range prefix length gives `net.CIDRMask = nil` and `Contains`
returns `false` for every address.  (`match` is a Lean keyword, hence the
name `matchIP`.) -/
def ipMatcher.matchIP : ipMatcher → IPv4 → Bool
  | .ipRule r, a => r == a
  | .networkRule n m, a =>
    if 0 ≤ m ∧ m ≤ 32 then
      let ones := m.toNat
      (Nat.land a.b0 (cidrMaskByte ones 0) == Nat.land n.b0 (cidrMaskByte ones 0)) &&
      (Nat.land a.b1 (cidrMaskByte ones 1) == Nat.land n.b1 (cidrMaskByte ones 1)) &&
      (Nat.land a.b2 (cidrMaskByte ones 2) == Nat.land n.b2 (cidrMaskByte ones 2)) &&
      (Nat.land a.b3 (cidrMaskByte ones 3) == Nat.land n.b3 (cidrMaskByte ones 3))
    else false

/-- `newIPMatcher`: split the rule on `/`; one part is a bare-address
rule, two parts are a CIDR rule whose prefix length goes through
`strconv.Atoi`.  `none` models every `log.Fatalf` branch (unparseable
address, unparseable prefix length, more than one `/`). -/
def newIPMatcher (rule : String) : Option ipMatcher :=
  match splitOnChar '/' rule.data with
  | [a] => (parseIPv4Chars a).map .ipRule
  | [a, m] =>
    match parseIPv4Chars a, atoi m with
    | some ip, some mi => some (.networkRule ip mi)
    | _, _ => none
  | _ => none

/-- `ForgivableError`: the policy record.  `durationSec` is
`forgivable.Duration` in seconds; `count` and `banInMinute` are Go ints. -/
structure ForgivableError where
  durationSec : ℚ
  count : ℤ
  banInMinute : ℤ
deriving DecidableEq, Repr

/-- The state of a `golang.org/x/time/rate` limiter as instantiated by
`doCountError`: `rate.NewLimiter(rate.Every(d), burst)`.  `limitInf`
records `rate.Every(d) = Inf` for `d ≤ 0`; otherwise the limit is `1/d`
tokens per second, so an elapsed time `e` yields `e / d` new tokens. -/
structure RateLimiter where
  limitInf : Bool
  durationSec : ℚ
  burst : ℤ
  tokens : ℚ
  last : ℚ
deriving DecidableEq, Repr

/-- `rate.NewLimiter(rate.Every(f.Duration), f.Count)`: the struct starts
with zero tokens and the zero time as `last`; the first `advance` then
fills the bucket because real clock readings are far from the origin. -/
def RateLimiter.new (f : ForgivableError) : RateLimiter :=
  { limitInf := decide (f.durationSec ≤ 0)
    durationSec := f.durationSec
    burst := f.count
    tokens := 0
    last := 0 }

/-- `Limiter.Allow` (that is, `AllowN(now, 1)` via `reserveN` with
`maxFutureReserve = 0`): advance caps the bucket at `burst` (and treats a
clock that moved backwards as zero elapsed time), then the reservation
succeeds iff `1 ≤ burst` and a full token is available; only a successful
reservation stores the advanced state. -/
def RateLimiter.allow (rl : RateLimiter) (now : ℚ) : Bool × RateLimiter :=
  if rl.limitInf then (true, rl)
  else
    let elapsed := max 0 (now - rl.last)
    let tk := min (rl.burst : ℚ) (rl.tokens + elapsed / rl.durationSec)
    if 1 ≤ rl.burst ∧ 1 ≤ tk then
      (true, { rl with tokens := tk - 1, last := now })
    else
      (false, rl)

/-- `errorCounter`: per-address limiter, reason FIFO (head = oldest, the
`queue.Linked` order), and `bannedUntil` (`none` is the zero `time.Time`).
-/
structure errorCounter where
  rateLimiter : RateLimiter
  reasons : List String
  bannedUntil : Option ℚ
deriving DecidableEq, Repr

/-- `ec.bannedUntil.After(now)`: the zero time is never after a real
clock reading. -/
def bannedAfter : Option ℚ → ℚ → Bool
  | none, _ => false
  | some t, now => decide (now < t)

/-- The geo record produced by `ipgeo.IPGeo`. -/
structure IPGeo where
  ip : String
  city : String
  subdivision : String
  country : String
  proxy : Bool
  anycast : Bool
  satellite : Bool
  autonomousSystemOrganization : String
deriving DecidableEq, Repr

/-- The `Firewall` struct.  `hasFW` is `s.fw != nil`; `geo` abstracts the
optional `*AutoUpdateMMIPGeo` as the lookup function it currently
implements (`none` is a nil pointer); `errorCount` is the per-address
map. -/
structure Firewall where
  whiteList : List ipMatcher
  hasFW : Bool
  geo : Option (String → IPGeo)
  forgivable : ForgivableError
  errorCount : List (String × errorCounter)

/-- Association-list lookup for the `errorCount` map. -/
def mapLookup (m : List (String × errorCounter)) (k : String) : Option errorCounter :=
  match m with
  | [] => none
  | (k', v) :: rest => if k' = k then some v else mapLookup rest k

/-- Association-list store for the `errorCount` map (overwrite in place,
append when absent). -/
def mapSet (m : List (String × errorCounter)) (k : String) (v : errorCounter) :
    List (String × errorCounter) :=
  match m with
  | [] => [(k, v)]
  | (k', v') :: rest => if k' = k then (k', v) :: rest else (k', v') :: mapSet rest k v

/-- Everything the engine's one event can emit to the outside: a backend
`BanIP` call and a logger `Log` call (arguments in the source order).
`jailUntil = none` is the zero `time.Time` third argument of the
"count error" and "banned" logs. -/
inductive Obs where
  | backendBan (ip : String) (timeoutInMinute : ℤ)
  | log (ip : String) (jailUntil : Option ℚ) (reasons : List String)
        (action : String) (geo : Option IPGeo)
deriving DecidableEq, Repr

/-- The trim loop of `doCountError`: `for ec.reasons.Size() > Count { Get }`.
(For a negative `Count` the Go loop never terminates once the queue is
empty; this total version stops there, a case outside every claim.) -/
def fifoTrim : List String → ℤ → List String
  | [], _ => []
  | x :: xs, c => if c < (x :: xs).length then fifoTrim xs c else x :: xs

/-- `Firewall.inWhitelist`.  `parseIP` runs inside the loop over the
matchers, so a non-empty whitelist applied to an unparseable address hits
`log.Fatalf` (modelled `Except.error ()`), while an empty whitelist never
parses at all. -/
def inWhitelist (s : Firewall) (ip : String) : Except Unit Bool :=
  match s.whiteList with
  | [] => .ok false
  | _ =>
    match parseIPv4String ip with
    | none => .error ()
    | some a => .ok (s.whiteList.any (fun m => m.matchIP a))

/-- `Firewall.doBanIP`: backend call when a backend is configured, then
geo enrichment when a geo component is configured, then the "ban" log
with `jailUntil = now + timeout minutes`. -/
def doBanIP (s : Firewall) (now : ℚ) (ip : String) (timeoutInMinute : ℤ)
    (reasons : List String) : List Obs :=
  (if s.hasFW then [Obs.backendBan ip timeoutInMinute] else []) ++
  [Obs.log ip (some (now + 60 * (timeoutInMinute : ℚ))) reasons "ban"
    (s.geo.map (fun g => g ip))]

/-- `Firewall.doCountError`: fetch or lazily create the counter entry; a
still-active ban logs "banned" and stops; otherwise offer the reason and
trim the FIFO, then either log "count error" (limiter allows) or escalate
(set `bannedUntil`, drain the FIFO into the ban reasons, run the full ban
path). -/
def doCountError (s : Firewall) (now : ℚ) (ip reason : String) :
    Firewall × List Obs :=
  let ecSt :=
    match mapLookup s.errorCount ip with
    | some ec => (ec, s)
    | none =>
      let fresh : errorCounter := ⟨RateLimiter.new s.forgivable, [], none⟩
      (fresh, { s with errorCount := mapSet s.errorCount ip fresh })
  let ec := ecSt.1
  let s1 := ecSt.2
  if bannedAfter ec.bannedUntil now then
    (s1, [Obs.log ip none [reason] "banned" none])
  else
    let reasons1 := fifoTrim (ec.reasons ++ [reason]) s.forgivable.count
    match ec.rateLimiter.allow now with
    | (true, rl') =>
      ({ s1 with errorCount := mapSet s1.errorCount ip ⟨rl', reasons1, ec.bannedUntil⟩ },
       [Obs.log ip none [reason] "count error" none])
    | (false, rl') =>
      let bannedUntilT := now + 60 * (s.forgivable.banInMinute : ℚ)
      ({ s1 with errorCount := mapSet s1.errorCount ip ⟨rl', [], some bannedUntilT⟩ },
       doBanIP s1 now ip s.forgivable.banInMinute reasons1)

/-- The two kinds of events the consumer loop receives on its channels. -/
inductive Event where
  | banIP (ip : String) (timeoutInMinute : ℤ) (reason : String)
  | logIPError (ip : String) (reason : String)

/-- One iteration of `Firewall.loop` for one received event: whitelist
short-circuit first, then `doBanIP` (with the singleton reason list built
by `BanIP`) or `doCountError`. -/
def step (s : Firewall) (now : ℚ) (ev : Event) :
    Except Unit (Firewall × List Obs) :=
  match ev with
  | .banIP ip t r =>
    match inWhitelist s ip with
    | .error e => .error e
    | .ok true => .ok (s, [])
    | .ok false => .ok (s, doBanIP s now ip t [r])
  | .logIPError ip r =>
    match inWhitelist s ip with
    | .error e => .error e
    | .ok true => .ok (s, [])
    | .ok false => .ok (doCountError s now ip r)

/-- The consumer loop over a finite schedule of timestamped events,
collecting every emitted observation in order. -/
def run (s : Firewall) : List (ℚ × Event) → Except Unit (Firewall × List Obs)
  | [] => .ok (s, [])
  | (now, ev) :: rest =>
    match step s now ev with
    | .error e => .error e
    | .ok (s', obs) =>
      match run s' rest with
      | .error e => .error e
      | .ok (s'', obs') => .ok (s'', obs ++ obs')

end firewall

namespace ipgeo

open firewall (IPGeo)

/-- `checkUpdateInterval = 1 * time.Hour`, in seconds. -/
def checkUpdateInterval : ℚ := 3600

/-- The city-database record the code reads through `geoip2`: English
names, the two traits, and the subdivision names in database order. -/
structure CityRecord where
  cityName : String
  countryName : String
  isAnonymousProxy : Bool
  isSatelliteProvider : Bool
  subdivisions : List String
deriving DecidableEq, Repr

/-- The zero-valued `geoip2.City` record: what a lookup yields for an
unresolved address, and what `geoip2` leaves in the record when the
lookup errors (for instance on a closed database). -/
def CityRecord.empty : CityRecord := ⟨"", "", false, false, []⟩

/-- `MMIPGeo`: one pair of opened `geoip2` readers.  `handleId` stands
for the pointer identity of the Go struct (a reopen yields a new one);
`closed` is set by `Close`, which closes both readers in place; the two
association lists are the (opaque, externally produced) database
contents keyed by address string. -/
structure MMIPGeo where
  handleId : Nat
  closed : Bool
  cityRecords : List (String × CityRecord)
  asnOrgs : List (String × String)
deriving DecidableEq, Repr

/-- `MMIPGeo.Close`: closes both underlying readers in place (the struct
itself, and any pointer to it, survives). -/
def MMIPGeo.close (mm : MMIPGeo) : MMIPGeo := { mm with closed := true }

/-- `mm.cityDB.City(ip)`: `geoip2` always returns a non-nil record
pointer; on a closed reader or an unresolved address the record is
zero-valued and the accompanying error is ignored by the caller
(`city, _ := ...`). -/
def MMIPGeo.cityLookup (mm : MMIPGeo) (ip : String) : CityRecord :=
  if mm.closed then CityRecord.empty
  else ((mm.cityRecords.find? (fun p => p.1 == ip)).map Prod.snd).getD CityRecord.empty

/-- `mm.asnDB.ASN(ip)`: same shape, yielding the organization name. -/
def MMIPGeo.asnLookup (mm : MMIPGeo) (ip : String) : String :=
  if mm.closed then ""
  else ((mm.asnOrgs.find? (fun p => p.1 == ip)).map Prod.snd).getD ""

/-- `MMIPGeo.GetIPGeo`: start from a record holding only the address,
populate the city fields (`Anycast` is assigned `IsAnonymousProxy`, same
as `Proxy`), reverse the subdivisions and join them with `/`, then
populate the autonomous-system organization. -/
def MMIPGeo.GetIPGeo (mm : MMIPGeo) (ip : String) : IPGeo :=
  let city := mm.cityLookup ip
  { ip := ip
    city := city.cityName
    country := city.countryName
    proxy := city.isAnonymousProxy
    anycast := city.isAnonymousProxy
    satellite := city.isSatelliteProvider
    subdivision := String.intercalate "/" city.subdivisions.reverse
    autonomousSystemOrganization := mm.asnLookup ip }

/-- The record `AutoUpdateMMIPGeo.GetIPGeo` builds when no database
handle is available: only the address is populated. -/
def IPGeo.addressOnly (ip : String) : IPGeo := ⟨ip, "", "", "", false, false, false, ""⟩

/-- What `os.Stat` reports about one file: size and modification time
(`none` is a stat error). -/
structure FileMeta where
  size : Nat
  mtime : ℚ
deriving DecidableEq, Repr

/-- The four files `update` looks at: the live and staged city database
and the live and staged ASN database. -/
structure GeoFS where
  cityLive : Option FileMeta
  cityStaged : Option FileMeta
  asnLive : Option FileMeta
  asnStaged : Option FileMeta
deriving DecidableEq, Repr

/-- The outcomes of the effectful steps of one `update` run: whether each
`copy` succeeds, and what `NewMMIPGeo` yields on the copied files (`none`
is an open error, in which case Go assigns the nil result to `db.mm`). -/
structure UpdateEnv where
  cityCopyOk : Bool
  asnCopyOk : Bool
  reopened : Option MMIPGeo
deriving DecidableEq, Repr

/-- `AutoUpdateMMIPGeo`: the current handle (`none` after a failed
reopen) and the throttle clock. -/
structure AutoUpdateMMIPGeo where
  mm : Option MMIPGeo
  lastCheck : ℚ
deriving DecidableEq, Repr

/-- `isFileUpdated`: stat both files (`none` propagates a stat error),
then report a difference in size or modification time.  (The Go version
also returns the staged file's `FileInfo` for `copy` to preserve its
modification time; the model's copy reads that same metadata from the
filesystem state.) -/
def isFileUpdated (currentFile latestFile : Option FileMeta) : Option Bool :=
  match currentFile, latestFile with
  | some c, some l => some (c.size ≠ l.size ∨ c.mtime ≠ l.mtime)
  | _, _ => none

/-- `copy(src, dst, srcStat)` on success makes the live file a byte copy
of the staged file and — via `os.Chtimes` — stamps it with the staged
file's modification time, so live and staged then compare equal. -/
def copyCityToLive (fs : GeoFS) : GeoFS := { fs with cityLive := fs.cityStaged }

def copyASNToLive (fs : GeoFS) : GeoFS := { fs with asnLive := fs.asnStaged }

/-- `AutoUpdateMMIPGeo.update`: throttle to one check per
`checkUpdateInterval`; compare both database pairs (a stat error is
logged and aborts the run); when neither differs, do nothing; otherwise
call `db.mm.Close()` — which, `Close` being a pointer-receiver method
that dereferences its receiver, is a nil-pointer dereference panic
(`Except.error ()`) when a prior reopen failure left `db.mm` nil — then
copy each file that differed (a copy error is logged and aborts the run,
leaving the closed handle in place), and reopen both databases as one
new handle (`nil` plus a log on error).  Returns the new component
state, the new filesystem state, and the logged messages. -/
def AutoUpdateMMIPGeo.update (db : AutoUpdateMMIPGeo) (now : ℚ) (fs : GeoFS)
    (env : UpdateEnv) : Except Unit (AutoUpdateMMIPGeo × GeoFS × List String) :=
  if now - db.lastCheck < checkUpdateInterval then .ok (db, fs, [])
  else
    let db1 : AutoUpdateMMIPGeo := { db with lastCheck := now }
    match isFileUpdated fs.cityLive fs.cityStaged with
    | none => .ok (db1, fs, ["Check city db update failed"])
    | some cityDBUpdated =>
      match isFileUpdated fs.asnLive fs.asnStaged with
      | none => .ok (db1, fs, ["Check asn db update failed"])
      | some asnDBUpdated =>
        if ¬ cityDBUpdated ∧ ¬ asnDBUpdated then .ok (db1, fs, [])
        else
          match db1.mm with
          | none => .error ()
          | some m =>
            let db2 : AutoUpdateMMIPGeo := { db1 with mm := some m.close }
            if cityDBUpdated ∧ ¬ env.cityCopyOk then
              .ok (db2, fs, ["Copy city db failed"])
            else
              let fs1 := if cityDBUpdated then copyCityToLive fs else fs
              if asnDBUpdated ∧ ¬ env.asnCopyOk then
                .ok (db2, fs1, ["Copy asn db failed"])
              else
                let fs2 := if asnDBUpdated then copyASNToLive fs1 else fs1
                match env.reopened with
                | some h => .ok ({ db2 with mm := some h }, fs2, [])
                | none => .ok ({ db2 with mm := none }, fs2, ["NewMMIPGeo failed"])

/-- `NewAutoUpdateMMIPGeo`: `NewMMIPGeo` on the live files (`none` means
the constructor returns the open error and no component exists), then an
immediate `update` from the zero `lastCheck` (which can never hit the
nil-handle panic, the handle having just been opened). -/
def NewAutoUpdateMMIPGeo (initialOpen : Option MMIPGeo) (now : ℚ) (fs : GeoFS)
    (env : UpdateEnv) : Option (Except Unit (AutoUpdateMMIPGeo × GeoFS × List String)) :=
  match initialOpen with
  | none => none
  | some mm => some (AutoUpdateMMIPGeo.update ⟨some mm, 0⟩ now fs env)

/-- `AutoUpdateMMIPGeo.GetIPGeo`: run the (possibly throttled) update —
propagating its possible panic — then either report the address-only
record (with a log line) when no handle is available, or look up through
the current handle. -/
def AutoUpdateMMIPGeo.GetIPGeo (db : AutoUpdateMMIPGeo) (now : ℚ) (fs : GeoFS)
    (env : UpdateEnv) (ip : String) :
    Except Unit (AutoUpdateMMIPGeo × GeoFS × List String × IPGeo) :=
  match db.update now fs env with
  | .error e => .error e
  | .ok (db', fs', logs) =>
    match db'.mm with
    | none => .ok (db', fs', logs ++ ["db.mm is nil"], IPGeo.addressOnly ip)
    | some mm => .ok (db', fs', logs, mm.GetIPGeo ip)

/-- C4 (code bug): geo-database failures degrade lookups to the
address-only record only until the next scheduled check meets a changed
staged file.  Concretely: a reopen failure during a hot update is logged
and leaves `db.mm` nil with the staged files already copied (first
conjunct); lookups inside the throttle window then return exactly the
address-only record, without error (second conjunct); but once a fresh
staged file appears, the next scheduled check — triggered from inside a
`GetIPGeo` — reaches `db.mm.Close()` with a nil receiver and the process
panics (third conjunct), contradicting "no lookup after such a failure
crashes; the process continues".  A failed initial open returns the
error from the constructor, so no lookup path exists (fourth conjunct).
-/
theorem geo_reopen_failure_panics_on_next_update :
    (⟨some ⟨1, false, [], []⟩, 0⟩ : AutoUpdateMMIPGeo).update 10000
        ⟨some ⟨10, 5⟩, some ⟨11, 6⟩, some ⟨20, 7⟩, some ⟨20, 7⟩⟩ ⟨true, true, none⟩ =
      .ok (⟨none, 10000⟩, ⟨some ⟨11, 6⟩, some ⟨11, 6⟩, some ⟨20, 7⟩, some ⟨20, 7⟩⟩,
           ["NewMMIPGeo failed"]) ∧
    (⟨none, 10000⟩ : AutoUpdateMMIPGeo).GetIPGeo 10100
        ⟨some ⟨11, 6⟩, some ⟨11, 6⟩, some ⟨20, 7⟩, some ⟨20, 7⟩⟩ ⟨true, true, none⟩
        "8.8.8.8" =
      .ok (⟨none, 10000⟩, ⟨some ⟨11, 6⟩, some ⟨11, 6⟩, some ⟨20, 7⟩, some ⟨20, 7⟩⟩,
           ["db.mm is nil"], IPGeo.addressOnly "8.8.8.8") ∧
    (⟨none, 10000⟩ : AutoUpdateMMIPGeo).GetIPGeo 20000
        ⟨some ⟨11, 6⟩, some ⟨12, 8⟩, some ⟨20, 7⟩, some ⟨20, 7⟩⟩
        ⟨true, true, some ⟨2, false, [], []⟩⟩ "8.8.8.8" =
      .error () ∧
    NewAutoUpdateMMIPGeo none 10000 ⟨none, none, none, none⟩ ⟨true, true, none⟩ = none := by
  refine ⟨?_, ?_, ?_, rfl⟩
  · norm_num [AutoUpdateMMIPGeo.update, isFileUpdated, copyCityToLive, copyASNToLive,
      checkUpdateInterval]
  · norm_num [AutoUpdateMMIPGeo.GetIPGeo, AutoUpdateMMIPGeo.update, checkUpdateInterval]
  · norm_num [AutoUpdateMMIPGeo.GetIPGeo, AutoUpdateMMIPGeo.update, isFileUpdated,
      checkUpdateInterval]

/-- C7: an unthrottled update check on a live handle (`db.mm` present —
a nil handle panics instead, see the C4 theorem) whose stats, copies and
reopen all succeed swaps the handle if and only if at least one of the
two database pairs differs in size or modification time (the fresh
reopened handle is distinct from the current one, as a fresh Go
allocation is); after a swap the live metadata equals the staged
metadata — the copy preserved the staged modification time — so both
comparisons report "unchanged", and any update check on such a
filesystem state swaps nothing, changes no file, and logs nothing. -/
theorem update_swaps_iff_staged_file_differs (db : AutoUpdateMMIPGeo) (now : ℚ)
    (fs : GeoFS) (env : UpdateEnv) (cl cs asn : FileMeta) (mm0 h : MMIPGeo) (d1 d2 : Bool)
    (hthrottle : checkUpdateInterval ≤ now - db.lastCheck)
    (hcl : fs.cityLive = some cl) (hcs : fs.cityStaged = some cs)
    (has : fs.asnStaged = some asn)
    (hd1 : isFileUpdated fs.cityLive fs.cityStaged = some d1)
    (hd2 : isFileUpdated fs.asnLive fs.asnStaged = some d2)
    (hcopyC : env.cityCopyOk = true) (hcopyA : env.asnCopyOk = true)
    (hreopen : env.reopened = some h)
    (hmm0 : db.mm = some mm0)
    (hfresh : mm0 ≠ h) :
    (∀ db2 fs2 logs2, db.update now fs env = .ok (db2, fs2, logs2) →
      ((db2.mm ≠ db.mm ↔ (d1 || d2) = true) ∧
       ((d1 || d2) = true →
         db2.mm = some h ∧
         isFileUpdated fs2.cityLive fs2.cityStaged = some false ∧
         isFileUpdated fs2.asnLive fs2.asnStaged = some false))) ∧
    (∀ (db' : AutoUpdateMMIPGeo) (now2 : ℚ) (fs' : GeoFS) (env2 : UpdateEnv),
       isFileUpdated fs'.cityLive fs'.cityStaged = some false →
       isFileUpdated fs'.asnLive fs'.asnStaged = some false →
       ∃ db2, db'.update now2 fs' env2 = .ok (db2, fs', ([] : List String)) ∧
         db2.mm = db'.mm) := by
  have hfresh' : some h ≠ db.mm := by
    rw [hmm0]
    intro hh
    exact hfresh (Option.some.inj hh).symm
  constructor
  · intro db2 fs2 logs2 hup
    rw [AutoUpdateMMIPGeo.update, if_neg (not_lt.mpr hthrottle), hd1, hd2] at hup
    dsimp only at hup
    rw [hmm0] at hup
    dsimp only at hup
    cases d1 <;> cases d2
    · simp only [not_false_eq_true, and_self, if_true] at hup
      cases hup
      simp [hmm0]
    · simp only [hcopyA, hreopen, not_false_eq_true, not_true_eq_false, and_self, and_false,
        false_and, and_true, true_and, if_false, Bool.not_eq_true] at hup
      cases hup
      refine ⟨by simp [hfresh'], fun _ => ⟨rfl, ?_, ?_⟩⟩
      · simpa [copyASNToLive] using hd1
      · simp [copyASNToLive, has, isFileUpdated]
    · simp only [hcopyC, hreopen, not_false_eq_true, not_true_eq_false, and_self, and_false,
        false_and, and_true, true_and, if_false, Bool.not_eq_true] at hup
      cases hup
      refine ⟨by simp [hfresh'], fun _ => ⟨rfl, ?_, ?_⟩⟩
      · simp [copyCityToLive, hcs, isFileUpdated]
      · simpa [copyCityToLive] using hd2
    · simp only [hcopyC, hcopyA, hreopen, not_false_eq_true, not_true_eq_false, and_self,
        and_false, false_and, and_true, true_and, if_false, Bool.not_eq_true] at hup
      cases hup
      refine ⟨by simp [hfresh'], fun _ => ⟨rfl, ?_, ?_⟩⟩
      · simp [copyCityToLive, copyASNToLive, hcs, isFileUpdated]
      · simp [copyCityToLive, copyASNToLive, has, isFileUpdated]
  · intro db' now2 fs' env2 hc1 hc2
    rw [AutoUpdateMMIPGeo.update]
    split
    · exact ⟨db', rfl, rfl⟩
    · rw [hc1, hc2]
      dsimp only
      rw [if_pos (by simp)]
      exact ⟨{ db' with lastCheck := now2 }, rfl, rfl⟩

/-- Witness for C7: the city pair differs (size 10 versus 11), the swap
installs the fresh handle 2, and both post-copy comparisons report
"unchanged". -/
theorem update_swaps_iff_staged_file_differs_witness :
    ((⟨some ⟨2, false, [], []⟩, 10000⟩ : AutoUpdateMMIPGeo).mm ≠
        (⟨some ⟨1, false, [], []⟩, 0⟩ : AutoUpdateMMIPGeo).mm ↔ (true || false) = true) ∧
    ((true || false) = true →
      (⟨some ⟨2, false, [], []⟩, 10000⟩ : AutoUpdateMMIPGeo).mm =
        some ⟨2, false, [], []⟩ ∧
      isFileUpdated (some ⟨11, 6⟩) (some ⟨11, 6⟩) = some false ∧
      isFileUpdated (some ⟨20, 7⟩) (some ⟨20, 7⟩) = some false) :=
  (update_swaps_iff_staged_file_differs ⟨some ⟨1, false, [], []⟩, 0⟩ 10000
      ⟨some ⟨10, 5⟩, some ⟨11, 6⟩, some ⟨20, 7⟩, some ⟨20, 7⟩⟩
      ⟨true, true, some ⟨2, false, [], []⟩⟩ ⟨10, 5⟩ ⟨11, 6⟩ ⟨20, 7⟩
      ⟨1, false, [], []⟩ ⟨2, false, [], []⟩ true false
      (by norm_num [checkUpdateInterval]) rfl rfl rfl (by decide) (by decide)
      rfl rfl rfl rfl (by decide)).1
    ⟨some ⟨2, false, [], []⟩, 10000⟩
    ⟨some ⟨11, 6⟩, some ⟨11, 6⟩, some ⟨20, 7⟩, some ⟨20, 7⟩⟩ []
    (by norm_num [AutoUpdateMMIPGeo.update, isFileUpdated, copyCityToLive, copyASNToLive,
      checkUpdateInterval, MMIPGeo.close])

/-- C10 (implicit): in every resolved lookup the record's `Anycast`
field equals its `Proxy` field — the source assigns the city database's
anonymous-proxy trait to both — so `Anycast` never independently
reflects an anycast attribute. -/
theorem anycast_equals_proxy (mm : MMIPGeo) (ip : String) :
    (mm.GetIPGeo ip).anycast = (mm.GetIPGeo ip).proxy ∧
    (mm.GetIPGeo ip).anycast = (mm.cityLookup ip).isAnonymousProxy := by
  simp [MMIPGeo.GetIPGeo]

end ipgeo

namespace firewall

/-- A whitelist-bearing construction used to instantiate theorems:
whitelist rule `192.168.1.2`, a backend present, no geo component, the
test policy `{Duration = 1 minute, Count = 2, BanInMinute = 5}`, and no
counter state yet. -/
def sampleState : Firewall :=
  ⟨[.ipRule ⟨192, 168, 1, 2⟩], true, none, ⟨60, 2, 5⟩, []⟩

/-- C1: for a whitelisted address (one some matcher accepts), both a
`BanIP` event and a `LogIPError` event leave the whole `Firewall` state
unchanged — in particular no error-counter entry is created — and emit no
observation at all: no backend call, no log call, under any prior counter
state. -/
theorem whitelisted_events_have_no_effect (s : Firewall) (now : ℚ) (ip : String)
    (t : ℤ) (r r' : String) (h : inWhitelist s ip = .ok true) :
    step s now (.banIP ip t r) = .ok (s, []) ∧
    step s now (.logIPError ip r') = .ok (s, []) := by
  constructor <;> simp [step, h]

/-- Witness for C1 at the whitelisted address `192.168.1.2`. -/
theorem whitelisted_events_have_no_effect_witness :
    inWhitelist sampleState "192.168.1.2" = .ok true ∧
    step sampleState 1000 (.banIP "192.168.1.2" 10 "x") = .ok (sampleState, []) ∧
    step sampleState 1000 (.logIPError "192.168.1.2" "y") = .ok (sampleState, []) :=
  ⟨rfl, whitelisted_events_have_no_effect sampleState 1000 "192.168.1.2" 10 "x" "y" rfl⟩

/-- C3: for a non-whitelisted address, a direct `BanIP` event
unconditionally (the counter state is arbitrary and left untouched)
invokes the backend exactly once and the logger exactly once with action
"ban", in that order. -/
theorem direct_ban_backend_once_log_once (s : Firewall) (now : ℚ) (ip : String)
    (t : ℤ) (r : String) (hw : inWhitelist s ip = .ok false) (hfw : s.hasFW = true) :
    step s now (.banIP ip t r) =
      .ok (s, [.backendBan ip t,
               .log ip (some (now + 60 * (t : ℚ))) [r] "ban" (s.geo.map (fun g => g ip))]) := by
  simp [step, hw, doBanIP, hfw]

/-- Witness for C3 at the non-whitelisted address `8.8.8.8`. -/
theorem direct_ban_backend_once_log_once_witness :
    inWhitelist sampleState "8.8.8.8" = .ok false ∧ sampleState.hasFW = true ∧
    step sampleState 1000 (.banIP "8.8.8.8" 7 "manual") =
      .ok (sampleState, [.backendBan "8.8.8.8" 7,
           .log "8.8.8.8" (some (1000 + 60 * ((7 : ℤ) : ℚ))) ["manual"] "ban" none]) :=
  ⟨rfl, rfl, direct_ban_backend_once_log_once sampleState 1000 "8.8.8.8" 7 "manual" rfl rfl⟩

/-- C5: a `CountError` event for an address whose entry is in the Banned
state (`bannedUntil` strictly in the future) emits exactly one "banned"
log (zero jail time, the single fresh reason, no geo) and nothing else:
the state — reason FIFO, rate limiter, `bannedUntil` — is unchanged and
the backend is not called. -/
theorem banned_state_absorbs_count_errors (s : Firewall) (now bu : ℚ)
    (ip reason : String) (ec : errorCounter)
    (hec : mapLookup s.errorCount ip = some ec)
    (hbu : ec.bannedUntil = some bu) (hnow : now < bu)
    (hw : inWhitelist s ip = .ok false) :
    step s now (.logIPError ip reason) =
      .ok (s, [.log ip none [reason] "banned" none]) := by
  simp [step, hw, doCountError, hec, bannedAfter, hbu, hnow]

/-- A state holding one Banned entry for `9.9.9.9` (until time 2000). -/
def bannedSampleState : Firewall :=
  ⟨[], true, none, ⟨60, 2, 5⟩, [("9.9.9.9", ⟨⟨false, 60, 2, 0, 500⟩, [], some 2000⟩)]⟩

/-- Witness for C5 at time 1000 against the entry banned until 2000. -/
theorem banned_state_absorbs_count_errors_witness :
    mapLookup bannedSampleState.errorCount "9.9.9.9" =
      some ⟨⟨false, 60, 2, 0, 500⟩, [], some 2000⟩ ∧
    step bannedSampleState 1000 (.logIPError "9.9.9.9" "again") =
      .ok (bannedSampleState, [.log "9.9.9.9" none ["again"] "banned" none]) :=
  ⟨rfl, banned_state_absorbs_count_errors bannedSampleState 1000 2000 "9.9.9.9" "again"
    ⟨⟨false, 60, 2, 0, 500⟩, [], some 2000⟩ rfl rfl (by norm_num) rfl⟩

/-- C2: under the policy `{window = 1 minute, count = 2, banMinutes = 5}`,
for any non-whitelisted address starting Clean, with the first three
errors inside one window (and the limiter bucket full, which the Go zero
`last` guarantees for any real clock): the first two `LogIPError` events
each yield one "count error" log and no ban; the third yields exactly one
backend invocation and one "ban" log whose reasons are the drained FIFO;
a fourth within the ban window yields exactly one "banned" log and no
further backend invocation. -/
theorem forgivable_policy_escalation_trace (ip r1 r2 r3 r4 : String)
    (t1 t2 t3 t4 : ℚ) (hfill : 120 ≤ t1) (h12 : t1 ≤ t2) (h23 : t2 ≤ t3)
    (hwin : t3 < t1 + 60) (h34 : t3 ≤ t4) (hban : t4 < t3 + 300) :
    ∃ sF, run ⟨[], true, none, ⟨60, 2, 5⟩, []⟩
        [(t1, .logIPError ip r1), (t2, .logIPError ip r2),
         (t3, .logIPError ip r3), (t4, .logIPError ip r4)] =
      .ok (sF,
        [.log ip none [r1] "count error" none,
         .log ip none [r2] "count error" none,
         .backendBan ip 5,
         .log ip (some (t3 + 300)) [r2, r3] "ban" none,
         .log ip none [r4] "banned" none]) := by
  have hs1 : step ⟨[], true, none, ⟨60, 2, 5⟩, []⟩ t1 (.logIPError ip r1) =
      .ok (⟨[], true, none, ⟨60, 2, 5⟩, [(ip, ⟨⟨false, 60, 2, 1, t1⟩, [r1], none⟩)]⟩,
           [.log ip none [r1] "count error" none]) := by
    have hmax : (0 : ℚ) ⊔ t1 = t1 := max_eq_right (by linarith)
    have hmin : (2 : ℚ) ⊓ (t1 / 60) = 2 := min_eq_left (by linarith)
    have hcond : (1 : ℚ) ≤ t1 / 60 := by linarith
    simp [step, inWhitelist, doCountError, mapLookup, mapSet, bannedAfter, fifoTrim,
      RateLimiter.new, RateLimiter.allow, hmax, hmin, hcond]
    norm_num
  have hs2 : step ⟨[], true, none, ⟨60, 2, 5⟩, [(ip, ⟨⟨false, 60, 2, 1, t1⟩, [r1], none⟩)]⟩
        t2 (.logIPError ip r2) =
      .ok (⟨[], true, none, ⟨60, 2, 5⟩,
            [(ip, ⟨⟨false, 60, 2, (2 : ℚ) ⊓ (1 + (t2 - t1) / 60) - 1, t2⟩, [r1, r2], none⟩)]⟩,
           [.log ip none [r2] "count error" none]) := by
    have hmax : (0 : ℚ) ⊔ (t2 - t1) = t2 - t1 := max_eq_right (by linarith)
    have hcond : (1 : ℚ) ≤ 2 ⊓ (1 + (t2 - t1) / 60) :=
      le_min (by norm_num) (by nlinarith [h12])
    simp [step, inWhitelist, doCountError, mapLookup, mapSet, bannedAfter, fifoTrim,
      RateLimiter.allow, hmax, hcond]
  have hs3 : step ⟨[], true, none, ⟨60, 2, 5⟩,
        [(ip, ⟨⟨false, 60, 2, (2 : ℚ) ⊓ (1 + (t2 - t1) / 60) - 1, t2⟩, [r1, r2], none⟩)]⟩
        t3 (.logIPError ip r3) =
      .ok (⟨[], true, none, ⟨60, 2, 5⟩,
            [(ip, ⟨⟨false, 60, 2, (2 : ℚ) ⊓ (1 + (t2 - t1) / 60) - 1, t2⟩, [],
                   some (t3 + 300)⟩)]⟩,
           [.backendBan ip 5, .log ip (some (t3 + 300)) [r2, r3] "ban" none]) := by
    have hmax : (0 : ℚ) ⊔ (t3 - t2) = t3 - t2 := max_eq_right (by linarith)
    have htok : (2 : ℚ) ⊓ (1 + (t2 - t1) / 60) - 1 ≤ (t2 - t1) / 60 := by
      have := min_le_right (2 : ℚ) (1 + (t2 - t1) / 60)
      linarith
    have hden : ¬ (1 : ℚ) ≤ 2 ⊓ ((2 : ℚ) ⊓ (1 + (t2 - t1) / 60) - 1 + (t3 - t2) / 60) := by
      push_neg
      refine lt_of_le_of_lt (min_le_right _ _) ?_
      have : (t3 - t1) / 60 < 1 := by linarith
      linarith
    simp [step, inWhitelist, doCountError, mapLookup, mapSet, bannedAfter, fifoTrim,
      RateLimiter.allow, doBanIP, hmax, hden]
    norm_num
  have hs4 : step ⟨[], true, none, ⟨60, 2, 5⟩,
        [(ip, ⟨⟨false, 60, 2, (2 : ℚ) ⊓ (1 + (t2 - t1) / 60) - 1, t2⟩, [],
               some (t3 + 300)⟩)]⟩
        t4 (.logIPError ip r4) =
      .ok (⟨[], true, none, ⟨60, 2, 5⟩,
            [(ip, ⟨⟨false, 60, 2, (2 : ℚ) ⊓ (1 + (t2 - t1) / 60) - 1, t2⟩, [],
                   some (t3 + 300)⟩)]⟩,
           [.log ip none [r4] "banned" none]) := by
    simp [step, inWhitelist, doCountError, mapLookup, bannedAfter, hban]
  refine ⟨⟨[], true, none, ⟨60, 2, 5⟩,
      [(ip, ⟨⟨false, 60, 2, (2 : ℚ) ⊓ (1 + (t2 - t1) / 60) - 1, t2⟩, [],
             some (t3 + 300)⟩)]⟩, ?_⟩
  simp [run, hs1, hs2, hs3, hs4]

/-- Witness for C2: the four-event burst at times 1000000 + 0/10/20/30. -/
theorem forgivable_policy_escalation_trace_witness :
    ∃ sF, run ⟨[], true, none, ⟨60, 2, 5⟩, []⟩
        [(1000000, .logIPError "1.2.3.4" "r1"), (1000010, .logIPError "1.2.3.4" "r2"),
         (1000020, .logIPError "1.2.3.4" "r3"), (1000030, .logIPError "1.2.3.4" "r4")] =
      .ok (sF,
        [.log "1.2.3.4" none ["r1"] "count error" none,
         .log "1.2.3.4" none ["r2"] "count error" none,
         .backendBan "1.2.3.4" 5,
         .log "1.2.3.4" (some (1000020 + 300)) ["r2", "r3"] "ban" none,
         .log "1.2.3.4" none ["r4"] "banned" none]) :=
  forgivable_policy_escalation_trace "1.2.3.4" "r1" "r2" "r3" "r4"
    1000000 1000010 1000020 1000030 (by norm_num) (by norm_num) (by norm_num)
    (by norm_num) (by norm_num) (by norm_num)

set_option maxRecDepth 4096 in
/-- Masking a byte with the full mask byte `0xff` is the identity. -/
theorem land_mask255 (b : Nat) (hb : b < 256) : Nat.land b 255 = b := by
  have h : ∀ x : Fin 256, Nat.land x.val 255 = x.val := by decide
  exact h ⟨b, hb⟩

set_option maxRecDepth 4096 in
/-- Masking a byte with the zero mask byte gives zero. -/
theorem land_mask0 (b : Nat) (hb : b < 256) : Nat.land b 0 = 0 := by
  have h : ∀ x : Fin 256, Nat.land x.val 0 = 0 := by decide
  exact h ⟨b, hb⟩

/-- C8: a matcher built from a bare address matches exactly that address;
a matcher built from an IPv4 CIDR rule matches exactly the addresses in
the network under the canonical 32-bit mask — `10.0.0.0/8` matches
exactly the addresses with first byte 10 (so `10.1.2.3` and not
`11.0.0.1`), and `192.168.1.0/24` matches exactly the addresses with
first three bytes 192.168.1, including the network address `192.168.1.0`
and the broadcast address `192.168.1.255`.  The construction equalities
tie the matchers to their rule strings. -/
theorem address_matcher_exact_and_cidr :
    (∀ r a : IPv4, (ipMatcher.ipRule r).matchIP a = true ↔ a = r) ∧
    newIPMatcher "192.168.1.10" = some (.ipRule ⟨192, 168, 1, 10⟩) ∧
    newIPMatcher "10.0.0.0/8" = some (.networkRule ⟨10, 0, 0, 0⟩ 8) ∧
    newIPMatcher "192.168.1.0/24" = some (.networkRule ⟨192, 168, 1, 0⟩ 24) ∧
    (∀ a : IPv4, a.b0 < 256 → a.b1 < 256 → a.b2 < 256 → a.b3 < 256 →
      ((ipMatcher.networkRule ⟨10, 0, 0, 0⟩ 8).matchIP a = true ↔ a.b0 = 10)) ∧
    (∀ a : IPv4, a.b0 < 256 → a.b1 < 256 → a.b2 < 256 → a.b3 < 256 →
      ((ipMatcher.networkRule ⟨192, 168, 1, 0⟩ 24).matchIP a = true ↔
        a.b0 = 192 ∧ a.b1 = 168 ∧ a.b2 = 1)) ∧
    (ipMatcher.networkRule ⟨10, 0, 0, 0⟩ 8).matchIP ⟨10, 1, 2, 3⟩ = true ∧
    (ipMatcher.networkRule ⟨10, 0, 0, 0⟩ 8).matchIP ⟨11, 0, 0, 1⟩ = false ∧
    (ipMatcher.networkRule ⟨192, 168, 1, 0⟩ 24).matchIP ⟨192, 168, 1, 0⟩ = true ∧
    (ipMatcher.networkRule ⟨192, 168, 1, 0⟩ 24).matchIP ⟨192, 168, 1, 255⟩ = true := by
  refine ⟨?_, rfl, rfl, rfl, ?_, ?_, by decide, by decide, by decide, by decide⟩
  · intro r a
    simp [ipMatcher.matchIP]
    constructor
    · intro h; exact h.symm
    · intro h; exact h.symm
  · intro a h0 h1 h2 h3
    simp [ipMatcher.matchIP, cidrMaskByte, land_mask255 _ h0, land_mask0 _ h1,
      land_mask0 _ h2, land_mask0 _ h3,
      (by decide : Nat.land 10 255 = 10), (by decide : Nat.land 0 0 = 0)]
  · intro a h0 h1 h2 h3
    simp [ipMatcher.matchIP, cidrMaskByte, land_mask255 _ h0, land_mask255 _ h1,
      land_mask255 _ h2, land_mask0 _ h3,
      (by decide : Nat.land 192 255 = 192), (by decide : Nat.land 168 255 = 168),
      (by decide : Nat.land 1 255 = 1), (by decide : Nat.land 0 0 = 0)]
    tauto

/-- Witness for C8, instantiating the quantified clauses at the CIDR
boundary address `192.168.1.255` and at a bare-rule pair. -/
theorem address_matcher_exact_and_cidr_witness :
    ((ipMatcher.networkRule ⟨192, 168, 1, 0⟩ 24).matchIP ⟨192, 168, 1, 255⟩ = true ↔
      (192 : Nat) = 192 ∧ (168 : Nat) = 168 ∧ (1 : Nat) = 1) ∧
    ((ipMatcher.ipRule ⟨192, 168, 1, 10⟩).matchIP ⟨192, 168, 1, 10⟩ = true ↔
      (⟨192, 168, 1, 10⟩ : IPv4) = ⟨192, 168, 1, 10⟩) :=
  ⟨address_matcher_exact_and_cidr.2.2.2.2.2.1 ⟨192, 168, 1, 255⟩
      (by decide) (by decide) (by decide) (by decide),
   address_matcher_exact_and_cidr.1 ⟨192, 168, 1, 10⟩ ⟨192, 168, 1, 10⟩⟩

/-- The trim loop leaves at most `c` reasons (for a non-negative cap). -/
theorem fifoTrim_length (l : List String) (c : ℤ) (hc : 0 ≤ c) :
    ((fifoTrim l c).length : ℤ) ≤ c := by
  induction l with
  | nil => simpa [fifoTrim] using hc
  | cons x xs ih =>
    rw [fifoTrim]
    split
    · exact ih
    · next h => push_neg at h; exact h

/-- Reading the association list through a store. -/
theorem mapLookup_mapSet (m : List (String × errorCounter)) (k k' : String)
    (v : errorCounter) :
    mapLookup (mapSet m k v) k' = if k = k' then some v else mapLookup m k' := by
  induction m with
  | nil => simp [mapSet, mapLookup]
  | cons p rest ih =>
    obtain ⟨k0, v0⟩ := p
    by_cases h0 : k0 = k
    · subst h0
      by_cases h1 : k0 = k'
      · subst h1; simp [mapSet, mapLookup]
      · simp [mapSet, mapLookup, h1]
    · by_cases h1 : k = k'
      · subst h1; simp [mapSet, mapLookup, h0, ih]
      · simp [mapSet, mapLookup, h0, h1, ih]

/-- The C6 state invariant: every existing counter entry holds at most
`forgivable.Count` reasons. -/
def fifoInv (s : Firewall) : Prop :=
  ∀ ip ec, mapLookup s.errorCount ip = some ec →
    ((ec.reasons.length : ℤ)) ≤ s.forgivable.count

/-- Storing a bounded entry preserves the bound over the whole map. -/
theorem invAfterSet (s : Firewall) (ip : String) (m : List (String × errorCounter))
    (v : errorCounter)
    (hm : ∀ ip' ec', mapLookup m ip' = some ec' → ((ec'.reasons.length : ℤ)) ≤ s.forgivable.count)
    (hv : ((v.reasons.length : ℤ)) ≤ s.forgivable.count) :
    ∀ ip' ec', mapLookup (mapSet m ip v) ip' = some ec' →
      ((ec'.reasons.length : ℤ)) ≤ s.forgivable.count := by
  intro ip' ec' h'
  rw [mapLookup_mapSet] at h'
  split at h'
  · cases h'; exact hv
  · exact hm ip' ec' h'

/-- One `doCountError` keeps every FIFO within the cap (each branch
stores either a trimmed FIFO, an empty FIFO, or nothing) and does not
touch the policy. -/
theorem doCountError_preserves (s : Firewall) (now : ℚ) (ip reason : String)
    (hc : 0 ≤ s.forgivable.count) (hInv : fifoInv s) :
    fifoInv (doCountError s now ip reason).1 ∧
    (doCountError s now ip reason).1.forgivable = s.forgivable := by
  unfold doCountError
  cases hml : mapLookup s.errorCount ip with
  | none =>
    dsimp only
    split
    · exact ⟨invAfterSet s ip s.errorCount _ hInv (by exact_mod_cast hc), rfl⟩
    · rcases hal : RateLimiter.allow (RateLimiter.new s.forgivable) now with ⟨allowed, rl'⟩
      cases allowed
      · dsimp only
        refine ⟨?_, rfl⟩
        refine invAfterSet s ip _ _ ?_ (by exact_mod_cast hc)
        exact invAfterSet s ip s.errorCount _ hInv (by exact_mod_cast hc)
      · dsimp only
        refine ⟨?_, rfl⟩
        refine invAfterSet s ip _ _ ?_ ?_
        · exact invAfterSet s ip s.errorCount _ hInv (by exact_mod_cast hc)
        · simpa using fifoTrim_length _ _ hc
  | some ec =>
    dsimp only
    split
    · exact ⟨hInv, rfl⟩
    · rcases hal : RateLimiter.allow ec.rateLimiter now with ⟨allowed, rl'⟩
      cases allowed
      · dsimp only
        refine ⟨?_, rfl⟩
        refine invAfterSet s ip _ _ hInv (by exact_mod_cast hc)
      · dsimp only
        refine ⟨?_, rfl⟩
        refine invAfterSet s ip _ _ hInv ?_
        simpa using fifoTrim_length _ _ hc

/-- One consumer-loop iteration preserves the FIFO bound. -/
theorem step_preserves (s : Firewall) (now : ℚ) (ev : Event) (s' : Firewall) (obs : List Obs)
    (hc : 0 ≤ s.forgivable.count) (hInv : fifoInv s)
    (h : step s now ev = .ok (s', obs)) :
    fifoInv s' ∧ s'.forgivable = s.forgivable := by
  cases ev with
  | banIP ip t r =>
    unfold step at h
    dsimp only at h
    cases hw : inWhitelist s ip with
    | error e => rw [hw] at h; cases h
    | ok b =>
      rw [hw] at h
      cases b
      · cases h; exact ⟨hInv, rfl⟩
      · cases h; exact ⟨hInv, rfl⟩
  | logIPError ip r =>
    unfold step at h
    dsimp only at h
    cases hw : inWhitelist s ip with
    | error e => rw [hw] at h; cases h
    | ok b =>
      rw [hw] at h
      cases b
      · injection h with h'
        have hfst := congrArg Prod.fst h'
        have hsnd := (doCountError_preserves s now ip r hc hInv)
        rw [hfst] at hsnd
        exact hsnd
      · cases h; exact ⟨hInv, rfl⟩

/-- Any completed event sequence preserves the FIFO bound. -/
theorem run_preserves (evs : List (ℚ × Event)) :
    ∀ (s sF : Firewall) (obs : List Obs),
      0 ≤ s.forgivable.count → fifoInv s → run s evs = .ok (sF, obs) →
      fifoInv sF ∧ sF.forgivable = s.forgivable := by
  induction evs with
  | nil =>
    intro s sF obs hc hInv h
    unfold run at h
    cases h
    exact ⟨hInv, rfl⟩
  | cons p rest ih =>
    intro s sF obs hc hInv h
    obtain ⟨now, ev⟩ := p
    unfold run at h
    cases hstep : step s now ev with
    | error e => rw [hstep] at h; cases h
    | ok pr =>
      obtain ⟨s1, obs1⟩ := pr
      rw [hstep] at h
      dsimp only at h
      cases hrun : run s1 rest with
      | error e => rw [hrun] at h; cases h
      | ok pr2 =>
        obtain ⟨s2, obs2⟩ := pr2
        rw [hrun] at h
        dsimp only at h
        cases h
        have h1 := step_preserves s now ev s1 obs1 hc hInv hstep
        have h2 := ih s1 _ obs2 (by rw [h1.2]; exact hc) h1.1 hrun
        exact ⟨h2.1, by rw [h2.2, h1.2]⟩

/-- C6: after any completed sequence of `BanIP`/`LogIPError` events from
a fresh construction (non-negative forgivable count), every address's
reason FIFO has length at most the forgivable count; and whenever an
escalated ban fires (entry present, not banned, limiter denies), the
whole FIFO — oldest first, trimmed after the fresh reason was offered —
becomes the ban event's reason list while the stored FIFO is left
empty. -/
theorem reason_fifo_bounded_and_drained_on_ban :
    (∀ (wl : List ipMatcher) (hb : Bool) (g : Option (String → IPGeo)) (f : ForgivableError)
       (evs : List (ℚ × Event)) (sF : Firewall) (obs : List Obs),
       0 ≤ f.count →
       run ⟨wl, hb, g, f, []⟩ evs = .ok (sF, obs) →
       ∀ ip ec, mapLookup sF.errorCount ip = some ec →
         ((ec.reasons.length : ℤ)) ≤ f.count) ∧
    (∀ (s : Firewall) (now : ℚ) (ip reason : String) (ec : errorCounter) (rl' : RateLimiter),
       mapLookup s.errorCount ip = some ec →
       bannedAfter ec.bannedUntil now = false →
       ec.rateLimiter.allow now = (false, rl') →
       doCountError s now ip reason =
         (⟨s.whiteList, s.hasFW, s.geo, s.forgivable,
           mapSet s.errorCount ip ⟨rl', [], some (now + 60 * (s.forgivable.banInMinute : ℚ))⟩⟩,
          doBanIP s now ip s.forgivable.banInMinute
            (fifoTrim (ec.reasons ++ [reason]) s.forgivable.count))) := by
  constructor
  · intro wl hb g f evs sF obs hc hrun ip ec hml
    have h := run_preserves evs ⟨wl, hb, g, f, []⟩ sF obs hc
      (by intro ip' ec' h'; simp [mapLookup] at h') hrun
    have := h.1 ip ec hml
    rwa [h.2] at this
  · intro s now ip reason ec rl' hml hbn hal
    simp [doCountError, hml, hbn, hal]

/-- Witness for C6: the bound at a fresh construction, and the drain at
a concrete two-reason entry whose limiter is exhausted. -/
theorem reason_fifo_bounded_and_drained_on_ban_witness :
    (∀ ip ec, mapLookup (⟨[], true, none, ⟨60, 2, 5⟩, []⟩ : Firewall).errorCount ip = some ec →
       ((ec.reasons.length : ℤ)) ≤ (2 : ℤ)) ∧
    doCountError ⟨[], true, none, ⟨60, 2, 5⟩,
        [("7.7.7.7", ⟨⟨false, 60, 2, 0, 1000⟩, ["a", "b"], none⟩)]⟩ 1000 "7.7.7.7" "c" =
      (⟨[], true, none, ⟨60, 2, 5⟩,
          mapSet [("7.7.7.7", ⟨⟨false, 60, 2, 0, 1000⟩, ["a", "b"], none⟩)]
            "7.7.7.7" ⟨⟨false, 60, 2, 0, 1000⟩, [], some (1000 + 60 * ((5 : ℤ) : ℚ))⟩⟩,
       doBanIP ⟨[], true, none, ⟨60, 2, 5⟩,
          [("7.7.7.7", ⟨⟨false, 60, 2, 0, 1000⟩, ["a", "b"], none⟩)]⟩ 1000 "7.7.7.7" 5
         (fifoTrim (["a", "b"] ++ ["c"]) 2)) :=
  ⟨reason_fifo_bounded_and_drained_on_ban.1 [] true none ⟨60, 2, 5⟩ [] ⟨[], true, none, ⟨60, 2, 5⟩, []⟩ [] (by decide) rfl,
   reason_fifo_bounded_and_drained_on_ban.2 ⟨[], true, none, ⟨60, 2, 5⟩,
       [("7.7.7.7", ⟨⟨false, 60, 2, 0, 1000⟩, ["a", "b"], none⟩)]⟩ 1000 "7.7.7.7" "c"
     ⟨⟨false, 60, 2, 0, 1000⟩, ["a", "b"], none⟩ ⟨false, 60, 2, 0, 1000⟩ rfl rfl
     (by norm_num [RateLimiter.allow])⟩

/-- C9 (code bug): the source comment in `parseIP` claims "this is safe
to crash, as the ip is from config", but `inWhitelist` feeds it runtime
addresses: with the (valid) whitelist rule `192.168.1.2` configured, a
`LogIPError` event for the malformed runtime address "not-an-ip" reaches
`log.Fatalf` and terminates the process (`Except.error`), contradicting
"no steady-state operation crashes". -/
theorem malformed_runtime_ip_hits_fatal_exit :
    newIPMatcher "192.168.1.2" = some (.ipRule ⟨192, 168, 1, 2⟩) ∧
    step sampleState 1000 (.logIPError "not-an-ip" "bad login") = .error () ∧
    step sampleState 1000 (.banIP "not-an-ip" 10 "bad login") = .error () :=
  ⟨rfl, rfl, rfl⟩

end firewall
